import Mathlib

/-!
Verification of the two-body contact constraint module of a rigid-body
physics engine (`src/dynamics/solver/contact_constraint/two_body_constraint.rs`).

The engine's scalar type `Real` (an IEEE float in the source) is modelled as
exact arithmetic: `ℚ` for the constraint builder / updater / writeback code
(whose operations are `+ - * max min clamp` and a guarded inverse), and `ℝ`
for the tangent-basis computation, which normalizes a vector (square root).
We embed the 3D (`dim3`) configuration of the source.

Mutation in the source (`&mut` state) is modelled by explicit state passing:
each operation takes the pre-state and returns the post-state.  The source's
`assert_eq!` in `generate` is modelled by an `Option` result (`none` on the
failing path).
-/

namespace Rapier

/-- A 3-dimensional vector with components of type `α` (the source's `Vector`
in the `dim3` configuration). -/
structure Vec3 (α : Type) where
  x : α
  y : α
  z : α
deriving DecidableEq

/-- A 2-dimensional vector (the source's `TangentImpulse` in `dim3`). -/
structure Vec2 (α : Type) where
  x : α
  y : α
deriving DecidableEq

namespace Vec3

variable {α : Type}

def add [Add α] (a b : Vec3 α) : Vec3 α := ⟨a.x + b.x, a.y + b.y, a.z + b.z⟩

def sub [Sub α] (a b : Vec3 α) : Vec3 α := ⟨a.x - b.x, a.y - b.y, a.z - b.z⟩

def neg [Neg α] (a : Vec3 α) : Vec3 α := ⟨-a.x, -a.y, -a.z⟩

def smul [Mul α] (c : α) (a : Vec3 α) : Vec3 α := ⟨c * a.x, c * a.y, c * a.z⟩

instance [Add α] : Add (Vec3 α) := ⟨add⟩

instance [Sub α] : Sub (Vec3 α) := ⟨sub⟩

instance [Neg α] : Neg (Vec3 α) := ⟨neg⟩

instance [Mul α] : SMul α (Vec3 α) := ⟨smul⟩

/-- Dot product (the source's `dot` / `gdot`). -/
def dot [Add α] [Mul α] (a b : Vec3 α) : α := a.x * b.x + a.y * b.y + a.z * b.z

/-- Cross product (the source's `cross` / `gcross` in `dim3`). -/
def cross [Sub α] [Mul α] (a b : Vec3 α) : Vec3 α :=
  ⟨a.y * b.z - a.z * b.y, a.z * b.x - a.x * b.z, a.x * b.y - a.y * b.x⟩

/-- Component-wise product (the source's `component_mul`). -/
def compMul [Mul α] (a b : Vec3 α) : Vec3 α := ⟨a.x * b.x, a.y * b.y, a.z * b.z⟩

def zero [Zero α] : Vec3 α := ⟨0, 0, 0⟩

end Vec3

namespace Vec2

variable {α : Type}

def add [Add α] (a b : Vec2 α) : Vec2 α := ⟨a.x + b.x, a.y + b.y⟩

instance [Add α] : Add (Vec2 α) := ⟨add⟩

def zero [Zero α] : Vec2 α := ⟨0, 0⟩

end Vec2

/-- A 3×3 matrix, stored by rows.  Models the source's
`effective_world_inv_inertia_sqrt` transform (`AngularInertia`) and rotation
matrices. -/
structure Mat3 (α : Type) where
  r1 : Vec3 α
  r2 : Vec3 α
  r3 : Vec3 α
deriving DecidableEq

namespace Mat3

variable {α : Type}

/-- Apply the matrix to a vector (the source's `transform_vector`). -/
def transform_vector [Add α] [Mul α] (m : Mat3 α) (v : Vec3 α) : Vec3 α :=
  ⟨m.r1.dot v, m.r2.dot v, m.r3.dot v⟩

def transpose (m : Mat3 α) : Mat3 α :=
  ⟨⟨m.r1.x, m.r2.x, m.r3.x⟩, ⟨m.r1.y, m.r2.y, m.r3.y⟩, ⟨m.r1.z, m.r2.z, m.r3.z⟩⟩

end Mat3

/-- A rigid transformation: rotation (as a matrix, assumed orthogonal) plus
translation.  Models the source's `Isometry` (which stores a unit quaternion;
only `transform_point` / `inverse_transform_point` are used by this module). -/
structure Isometry (α : Type) where
  rotation : Mat3 α
  translation : Vec3 α
deriving DecidableEq

namespace Isometry

variable {α : Type}

def transform_point [Add α] [Mul α] (iso : Isometry α) (p : Vec3 α) : Vec3 α :=
  iso.rotation.transform_vector p + iso.translation

/-- Inverse transform: for an orthogonal rotation the inverse is the
transpose. -/
def inverse_transform_point [Add α] [Sub α] [Mul α] (iso : Isometry α) (p : Vec3 α) :
    Vec3 α :=
  iso.rotation.transpose.transform_vector (p - iso.translation)

end Isometry

/-- Modelled from the spec: integration parameters exposing `dt`, `inv_dt`,
an error-reduction rate scaled by `inv_dt` (`erp_inv_dt`), a
constraint-force-mixing factor (`cfm_factor`), an allowed linear penetration
slop (`allowed_linear_error`), and a maximum penetration-correction rate
(`max_penetration_correction`).  The `IntegrationParameters` struct and its
accessor methods live outside `src/`; this module only reads these six
quantities, so they are modelled as plain fields. -/
structure IntegrationParameters where
  dt : ℚ
  inv_dt : ℚ
  erp_inv_dt : ℚ
  cfm_factor : ℚ
  allowed_linear_error : ℚ
  max_penetration_correction : ℚ

/-- Modelled from the spec: `utils::inv` (defined outside `src/`); inverses of
zero are defined as zero ("degenerate zero denominators must be treated as
zero effective mass, never divide-by-zero"). -/
def utilsInv (x : ℚ) : ℚ := if x = 0 then 0 else x⁻¹

/-- Rust's `Real::clamp(lo, hi)` (well-defined when `lo ≤ hi`, which holds
wherever the source uses it with nonnegative parameters). -/
def clamp (x lo hi : ℚ) : ℚ := min (max x lo) hi

/-- Maximum number of contact points per constraint batch
(`MAX_MANIFOLD_POINTS`, defined outside `src/`; its `dim3` value is 4 — the
claims do not depend on the exact value, only on it being a fixed bound). -/
abbrev MAX_MANIFOLD_POINTS : Nat := 4

/-- The normal part of one contact element (`TwoBodyConstraintNormalPart`;
its struct is declared outside `src/`, fields reconstructed from the struct
literal in `generate` and the accesses in the rest of the module). -/
structure TwoBodyConstraintNormalPart where
  gcross1 : Vec3 ℚ
  gcross2 : Vec3 ℚ
  rhs : ℚ
  rhs_wo_bias : ℚ
  impulse : ℚ
  total_impulse : ℚ
  r : ℚ
deriving DecidableEq

/-- The tangent (friction) part of one contact element in `dim3`
(`TwoBodyConstraintTangentPart`): two tangent directions, plus a cross-term
slot `r 2` coupling them. -/
structure TwoBodyConstraintTangentPart where
  gcross1 : Fin 2 → Vec3 ℚ
  gcross2 : Fin 2 → Vec3 ℚ
  rhs : Fin 2 → ℚ
  rhs_wo_bias : Fin 2 → ℚ
  impulse : Vec2 ℚ
  total_impulse : Vec2 ℚ
  r : Fin 3 → ℚ
deriving DecidableEq

/-- One per-contact-point element (`TwoBodyConstraintElement`). -/
structure TwoBodyConstraintElement where
  normal_part : TwoBodyConstraintNormalPart
  tangent_part : TwoBodyConstraintTangentPart
deriving DecidableEq

/-- `TwoBodyConstraint` (dim3): one manifold batch's solver-facing state. -/
structure TwoBodyConstraint where
  dir1 : Vec3 ℚ
  tangent1 : Vec3 ℚ
  im1 : Vec3 ℚ
  im2 : Vec3 ℚ
  cfm_factor : ℚ
  limit : ℚ
  solver_vel1 : Nat
  solver_vel2 : Nat
  manifold_id : Nat
  manifold_contact_id : Fin MAX_MANIFOLD_POINTS → Nat
  num_contacts : Nat
  elements : Fin MAX_MANIFOLD_POINTS → TwoBodyConstraintElement
deriving DecidableEq

/-- `ContactPointInfos`: per-contact-point data kept by the builder between
full rebuilds. -/
structure ContactPointInfos where
  local_p1 : Vec3 ℚ
  local_p2 : Vec3 ℚ
  tangent_vel : Vec3 ℚ
  dist : ℚ
  normal_rhs_wo_bias : ℚ
deriving DecidableEq

/-- `TwoBodyConstraintBuilder`. -/
structure TwoBodyConstraintBuilder where
  infos : Fin MAX_MANIFOLD_POINTS → ContactPointInfos
deriving DecidableEq

/-- Rigid-body velocity record (`linvel`, `angvel`) as read by `generate`. -/
structure RigidBodyVels where
  linvel : Vec3 ℚ
  angvel : Vec3 ℚ
deriving DecidableEq

/-- Rigid-body mass properties as read by `generate`. -/
structure RigidBodyMassProps where
  effective_inv_mass : Vec3 ℚ
  effective_world_inv_inertia_sqrt : Mat3 ℚ
  world_com : Vec3 ℚ
deriving DecidableEq

/-- The parts of a rigid-body record read by this module (`rb.vels`,
`rb.mprops`, `rb.ids.active_set_offset`, `rb.pos.position`). -/
structure RigidBody where
  vels : RigidBodyVels
  mprops : RigidBodyMassProps
  active_set_offset : Nat
  position : Isometry ℚ
deriving DecidableEq

/-- One solver contact point of a manifold, with the fields this module
reads.  The source queries the bouncy flag through `is_bouncy()`; it is
modelled as a stored `Bool`.  `contact_id` is a `u8` in the source. -/
structure SolverContact where
  point : Vec3 ℚ
  dist : ℚ
  friction : ℚ
  restitution : ℚ
  tangent_velocity : Vec3 ℚ
  bouncy : Bool
  contact_id : Nat
deriving DecidableEq

/-- The impulse fields of one stored manifold contact that `writeback_impulses`
mutates. -/
structure ContactData where
  impulse : ℚ
  tangent_impulse : Vec2 ℚ
deriving DecidableEq

/-- A stored manifold contact (`manifold.points[i]`). -/
structure Contact where
  data : ContactData
deriving DecidableEq

/-- The manifold data read by `generate`.  The source stores the body handles
as `Option` and unwraps them; they are modelled as plain indices into the
body set. -/
structure ContactManifoldData where
  rigid_body1 : Nat
  rigid_body2 : Nat
  normal : Vec3 ℚ
  relative_dominance : Int
  solver_contacts : List SolverContact
deriving DecidableEq

/-- A contact manifold: solver-facing data plus the stored contact points that
receive the written-back impulses. -/
structure ContactManifold where
  data : ContactManifoldData
  points : List Contact
deriving DecidableEq

/-- The normal-direction effective-mass denominator computed by `generate` for
one contact point: both bodies' linear inverse-mass contribution along the
force direction plus both angular `gcross` contributions. -/
def normalDenom (mprops1 mprops2 : RigidBodyMassProps) (force_dir1 point : Vec3 ℚ) : ℚ :=
  let dp1 := point - mprops1.world_com
  let dp2 := point - mprops2.world_com
  let gcross1 := mprops1.effective_world_inv_inertia_sqrt.transform_vector (dp1.cross force_dir1)
  let gcross2 := mprops2.effective_world_inv_inertia_sqrt.transform_vector (dp2.cross (-force_dir1))
  let imsum := mprops1.effective_inv_mass + mprops2.effective_inv_mass
  force_dir1.dot (imsum.compMul force_dir1) + gcross1.dot gcross1 + gcross2.dot gcross2

/-- The body of `generate`'s inner loop for one contact point `k`: builds the
element written into `constraint.elements[k]` and the `ContactPointInfos`
written into `builder.infos[k]`.  The element's tangent part keeps the old
`total_impulse` (the source never writes it in `generate`). -/
def generatePoint (mprops1 mprops2 : RigidBodyMassProps) (vels1 vels2 : RigidBodyVels)
    (rb1_pos rb2_pos : Isometry ℚ) (force_dir1 : Vec3 ℚ) (tangents1 : Fin 2 → Vec3 ℚ)
    (manifold_point : SolverContact) (oldElt : TwoBodyConstraintElement) :
    TwoBodyConstraintElement × ContactPointInfos :=
  let point := manifold_point.point
  let dp1 := point - mprops1.world_com
  let dp2 := point - mprops2.world_com
  let vel1 := vels1.linvel + vels1.angvel.cross dp1
  let vel2 := vels2.linvel + vels2.angvel.cross dp2
  let gcross1 := mprops1.effective_world_inv_inertia_sqrt.transform_vector (dp1.cross force_dir1)
  let gcross2 := mprops2.effective_world_inv_inertia_sqrt.transform_vector (dp2.cross (-force_dir1))
  let projected_mass := utilsInv (normalDenom mprops1 mprops2 force_dir1 point)
  let is_bouncy : ℚ := if manifold_point.bouncy then 1 else 0
  let normal_rhs_wo_bias :=
    (is_bouncy * manifold_point.restitution) * ((vel1 - vel2).dot force_dir1)
  let normal_part : TwoBodyConstraintNormalPart :=
    { gcross1 := gcross1, gcross2 := gcross2, rhs := 0, rhs_wo_bias := 0,
      impulse := 0, total_impulse := 0, r := projected_mass }
  let imsum := mprops1.effective_inv_mass + mprops2.effective_inv_mass
  let tgcross1 : Fin 2 → Vec3 ℚ := fun j =>
    mprops1.effective_world_inv_inertia_sqrt.transform_vector (dp1.cross (tangents1 j))
  let tgcross2 : Fin 2 → Vec3 ℚ := fun j =>
    mprops2.effective_world_inv_inertia_sqrt.transform_vector (dp2.cross (-(tangents1 j)))
  let tr : Fin 2 → ℚ := fun j =>
    (tangents1 j).dot (imsum.compMul (tangents1 j)) +
      (tgcross1 j).dot (tgcross1 j) + (tgcross2 j).dot (tgcross2 j)
  let trhs : Fin 2 → ℚ := fun j => manifold_point.tangent_velocity.dot (tangents1 j)
  let rcross := 2 * ((tgcross1 0).dot (tgcross1 1) + (tgcross2 0).dot (tgcross2 1))
  let tangent_part : TwoBodyConstraintTangentPart :=
    { oldElt.tangent_part with
      impulse := Vec2.zero
      gcross1 := tgcross1
      gcross2 := tgcross2
      rhs_wo_bias := trhs
      rhs := trhs
      r := ![tr 0, tr 1, rcross] }
  let infos : ContactPointInfos :=
    { local_p1 := rb1_pos.inverse_transform_point manifold_point.point
      local_p2 := rb2_pos.inverse_transform_point manifold_point.point
      tangent_vel := manifold_point.tangent_velocity
      dist := manifold_point.dist
      normal_rhs_wo_bias := normal_rhs_wo_bias }
  ({ normal_part := normal_part, tangent_part := tangent_part }, infos)

/-- One iteration of `generate`'s chunk loop: fills `out_builders[l]` and
`out_constraints[l]` from one chunk of at most `MAX_MANIFOLD_POINTS` solver
contacts.  The source's point loop writes slot `k` exactly once per point and
overwrites `constraint.limit` on every iteration (so the final value is the
last point's friction); the point-wise functions below are that loop's final
state. -/
def generateChunk (manifold_id : Nat) (rb1 rb2 : RigidBody) (force_dir1 : Vec3 ℚ)
    (tangents1 : Fin 2 → Vec3 ℚ) (manifold_points : List SolverContact)
    (builder : TwoBodyConstraintBuilder) (constraint : TwoBodyConstraint) :
    TwoBodyConstraintBuilder × TwoBodyConstraint :=
  let n := manifold_points.length
  let pointOut : (i : Fin MAX_MANIFOLD_POINTS) → i.val < n →
      TwoBodyConstraintElement × ContactPointInfos := fun i h =>
    generatePoint rb1.mprops rb2.mprops rb1.vels rb2.vels rb1.position rb2.position
      force_dir1 tangents1 (manifold_points.get ⟨i.val, h⟩) (constraint.elements i)
  let newElements : Fin MAX_MANIFOLD_POINTS → TwoBodyConstraintElement := fun i =>
    if h : i.val < n then (pointOut i h).1 else constraint.elements i
  let newInfos : Fin MAX_MANIFOLD_POINTS → ContactPointInfos := fun i =>
    if h : i.val < n then (pointOut i h).2 else builder.infos i
  let newIds : Fin MAX_MANIFOLD_POINTS → Nat := fun i =>
    if h : i.val < n then (manifold_points.get ⟨i.val, h⟩).contact_id
    else constraint.manifold_contact_id i
  let newLimit :=
    match manifold_points.getLast? with
    | some p => p.friction
    | none => constraint.limit
  (⟨newInfos⟩,
   { constraint with
      dir1 := force_dir1
      tangent1 := tangents1 0
      im1 := rb1.mprops.effective_inv_mass
      im2 := rb2.mprops.effective_inv_mass
      limit := newLimit
      solver_vel1 := rb1.active_set_offset
      solver_vel2 := rb2.active_set_offset
      manifold_id := manifold_id
      manifold_contact_id := newIds
      num_contacts := n
      elements := newElements })

/-- `generate`'s loop over the chunks of the manifold's solver contacts,
zipped with the output arrays (the source indexes `out_builders[l]` /
`out_constraints[l]`; entries beyond the chunk count are untouched). -/
def generateLoop (manifold_id : Nat) (rb1 rb2 : RigidBody) (force_dir1 : Vec3 ℚ)
    (tangents1 : Fin 2 → Vec3 ℚ) :
    List (List SolverContact) → List TwoBodyConstraintBuilder → List TwoBodyConstraint →
    List TwoBodyConstraintBuilder × List TwoBodyConstraint
  | chunk :: chunks, b :: bs, c :: cs =>
    let (b2, c2) := generateChunk manifold_id rb1 rb2 force_dir1 tangents1 chunk b c
    let rest := generateLoop manifold_id rb1 rb2 force_dir1 tangents1 chunks bs cs
    (b2 :: rest.1, c2 :: rest.2)
  | _, bs, cs => (bs, cs)

/-- `TwoBodyConstraintBuilder::generate`.  The source's
`assert_eq!(manifold.data.relative_dominance, 0)` is modelled by returning
`none` (assertion failure: no output is produced) when the relative dominance
is nonzero.  `computeTangents` is the tangent-basis routine
(`compute_tangent_contact_directions` in `dim3`, embedded separately over `ℝ`
because it normalizes a vector); `generate` is parameterized by it and calls
it once per manifold on the force direction and the two linear velocities. -/
def generate (computeTangents : Vec3 ℚ → Vec3 ℚ → Vec3 ℚ → Fin 2 → Vec3 ℚ)
    (manifold_id : Nat) (manifold : ContactManifold) (bodies : Nat → RigidBody)
    (out_builders : List TwoBodyConstraintBuilder)
    (out_constraints : List TwoBodyConstraint) :
    Option (List TwoBodyConstraintBuilder × List TwoBodyConstraint) :=
  if manifold.data.relative_dominance = 0 then
    let rb1 := bodies manifold.data.rigid_body1
    let rb2 := bodies manifold.data.rigid_body2
    let force_dir1 := -manifold.data.normal
    let tangents1 := computeTangents force_dir1 rb1.vels.linvel rb2.vels.linvel
    some (generateLoop manifold_id rb1 rb2 force_dir1 tangents1
      (manifold.data.solver_contacts.toChunks MAX_MANIFOLD_POINTS)
      out_builders out_constraints)
  else none

/-- The world position of body 1's anchor in `update_with_positions`,
advanced by the tangent surface velocity
(`rb1_pos.transform_point(&info.local_p1) + info.tangent_vel * solved_dt`). -/
def updatedP1 (solved_dt : ℚ) (rb1_pos : Isometry ℚ) (info : ContactPointInfos) : Vec3 ℚ :=
  rb1_pos.transform_point info.local_p1 + solved_dt • info.tangent_vel

/-- The world position of body 2's anchor in `update_with_positions`. -/
def updatedP2 (rb2_pos : Isometry ℚ) (info : ContactPointInfos) : Vec3 ℚ :=
  rb2_pos.transform_point info.local_p2

/-- The current separation recomputed by `update_with_positions`:
`info.dist + (p1 - p2).dot(constraint.dir1)`. -/
def updatedDist (solved_dt : ℚ) (rb1_pos rb2_pos : Isometry ℚ) (dir1 : Vec3 ℚ)
    (info : ContactPointInfos) : ℚ :=
  info.dist + (updatedP1 solved_dt rb1_pos info - updatedP2 rb2_pos info).dot dir1

/-- The normal bias term of `update_with_positions`:
`erp_inv_dt * (dist + allowed_linear_error).clamp(-max_penetration_correction, 0.0)`. -/
def normalBias (params : IntegrationParameters) (dist : ℚ) : ℚ :=
  params.erp_inv_dt *
    clamp (dist + params.allowed_linear_error) (-params.max_penetration_correction) 0

/-- The bias-free normal rhs of `update_with_positions`:
`info.normal_rhs_wo_bias + dist.max(0.0) * inv_dt`. -/
def normalRhsWoBias (params : IntegrationParameters) (info : ContactPointInfos)
    (dist : ℚ) : ℚ :=
  info.normal_rhs_wo_bias + max dist 0 * params.inv_dt

/-- The full new normal rhs (`new_rhs = rhs_wo_bias + rhs_bias`) of
`update_with_positions` for one contact point. -/
def updatedNewRhs (params : IntegrationParameters) (solved_dt : ℚ)
    (rb1_pos rb2_pos : Isometry ℚ) (dir1 : Vec3 ℚ) (info : ContactPointInfos) : ℚ :=
  let dist := updatedDist solved_dt rb1_pos rb2_pos dir1 info
  normalRhsWoBias params info dist + normalBias params dist

/-- The per-element body of `update_with_positions`'s loop: refreshes the
normal and tangent rhs from current poses, accumulates the total impulses and
resets the per-substep impulses. -/
def updateElement (params : IntegrationParameters) (solved_dt : ℚ)
    (rb1_pos rb2_pos : Isometry ℚ) (dir1 : Vec3 ℚ) (tangents1 : Fin 2 → Vec3 ℚ)
    (info : ContactPointInfos) (element : TwoBodyConstraintElement) :
    TwoBodyConstraintElement :=
  let p1 := updatedP1 solved_dt rb1_pos info
  let p2 := updatedP2 rb2_pos info
  let dist := updatedDist solved_dt rb1_pos rb2_pos dir1 info
  let rhs_wo_bias := normalRhsWoBias params info dist
  let new_rhs := rhs_wo_bias + normalBias params dist
  { element with
    normal_part := { element.normal_part with
      rhs_wo_bias := rhs_wo_bias
      rhs := new_rhs
      total_impulse := element.normal_part.total_impulse + element.normal_part.impulse
      impulse := 0 }
    tangent_part := { element.tangent_part with
      total_impulse := element.tangent_part.total_impulse + element.tangent_part.impulse
      impulse := Vec2.zero
      rhs := fun j =>
        element.tangent_part.rhs_wo_bias j + ((p1 - p2).dot (tangents1 j)) * params.inv_dt } }

/-- `TwoBodyConstraintBuilder::update_with_positions`: refreshes the rhs of
every active element from current poses, recomputes the fast-contact
classification from scratch (the local flag starts `false` on every call) and
sets `cfm_factor` to `1.0` if any point is fast, otherwise to the integration
parameters' cfm factor.  The fast test is
`-new_rhs * dt > ccd_thickness * 0.5`. -/
def TwoBodyConstraintBuilder.update_with_positions (self : TwoBodyConstraintBuilder)
    (params : IntegrationParameters) (solved_dt : ℚ) (rb1_pos rb2_pos : Isometry ℚ)
    (ccd_thickness : ℚ) (constraint : TwoBodyConstraint) : TwoBodyConstraint :=
  let tangents1 : Fin 2 → Vec3 ℚ :=
    ![constraint.tangent1, constraint.dir1.cross constraint.tangent1]
  let is_fast_contact : Bool :=
    (List.finRange MAX_MANIFOLD_POINTS).any fun i =>
      decide (i.val < constraint.num_contacts) &&
        decide (-(updatedNewRhs params solved_dt rb1_pos rb2_pos constraint.dir1
            (self.infos i)) * params.dt > ccd_thickness * (1 / 2))
  { constraint with
    elements := fun i =>
      if i.val < constraint.num_contacts then
        updateElement params solved_dt rb1_pos rb2_pos constraint.dir1 tangents1
          (self.infos i) (constraint.elements i)
      else constraint.elements i
    cfm_factor := if is_fast_contact then 1 else params.cfm_factor }

/-- One iteration of `writeback_impulses`'s loop: copy element `k`'s solved
impulses into the manifold point matched by the manifold-local contact
identifier. -/
def writebackPoint (c : TwoBodyConstraint) (k : Fin MAX_MANIFOLD_POINTS)
    (points : List Contact) : List Contact :=
  points.set (c.manifold_contact_id k)
    { data := { impulse := (c.elements k).normal_part.impulse
                tangent_impulse := (c.elements k).tangent_part.impulse } }

/-- `writeback_impulses`'s loop over the active contact indices, in order. -/
def writebackLoop (c : TwoBodyConstraint) :
    List (Fin MAX_MANIFOLD_POINTS) → List Contact → List Contact
  | [], points => points
  | k :: ks, points => writebackLoop c ks (writebackPoint c k points)

/-- The list of active element indices `0 .. num_contacts` of a constraint. -/
def activeIndices (c : TwoBodyConstraint) : List (Fin MAX_MANIFOLD_POINTS) :=
  (List.finRange MAX_MANIFOLD_POINTS).filter fun k => decide (k.val < c.num_contacts)

/-- `TwoBodyConstraint::writeback_impulses`: for each active contact, copy the
element's normal and tangent impulses into the owning manifold's stored
contact matched by `manifold_contact_id`.  An out-of-range manifold id would
panic in the source (stale constraint); it is modelled as a no-op here and
excluded by the theorems' hypotheses. -/
def TwoBodyConstraint.writeback_impulses (c : TwoBodyConstraint)
    (manifolds_all : List ContactManifold) : List ContactManifold :=
  match manifolds_all.get? c.manifold_id with
  | some manifold =>
    manifolds_all.set c.manifold_id
      { manifold with points := writebackLoop c (activeIndices c) manifold.points }
  | none => manifolds_all

/-- `TwoBodyConstraint::remove_cfm_and_bias_from_rhs`: reset the
constraint-force-mixing factor to neutral and collapse each element's rhs to
its bias-free value.  The source loops over all `MAX_MANIFOLD_POINTS`
elements; the commented-out lines restoring `total_impulse` into `impulse`
are absent, so impulses are untouched. -/
def TwoBodyConstraint.remove_cfm_and_bias_from_rhs (c : TwoBodyConstraint) :
    TwoBodyConstraint :=
  { c with
    cfm_factor := 1
    elements := fun i =>
      let elt := c.elements i
      { elt with
        normal_part := { elt.normal_part with rhs := elt.normal_part.rhs_wo_bias }
        tangent_part := { elt.tangent_part with rhs := elt.tangent_part.rhs_wo_bias } } }

/-- `TwoBodyConstraintElement::zero()` (constructor defined with the element
struct outside `src/`): the all-zero element. -/
def TwoBodyConstraintElement.zero : TwoBodyConstraintElement :=
  { normal_part :=
      { gcross1 := Vec3.zero, gcross2 := Vec3.zero, rhs := 0,
        rhs_wo_bias := 0, impulse := 0, total_impulse := 0, r := 0 }
    tangent_part :=
      { gcross1 := fun _ => Vec3.zero, gcross2 := fun _ => Vec3.zero,
        rhs := fun _ => 0, rhs_wo_bias := fun _ => 0, impulse := Vec2.zero,
        total_impulse := Vec2.zero, r := fun _ => 0 } }

/-- `usize::MAX`, the source's sentinel index value. -/
def usizeMax : Nat := 2 ^ 64 - 1

/-- `u8::MAX`. -/
def u8Max : Nat := 255

/-- `TwoBodyConstraint::invalid()`: sentinel-initialized constraint. -/
def TwoBodyConstraint.invalid : TwoBodyConstraint :=
  { dir1 := Vec3.zero, tangent1 := Vec3.zero, im1 := Vec3.zero, im2 := Vec3.zero,
    cfm_factor := 0, limit := 0, solver_vel1 := usizeMax, solver_vel2 := usizeMax,
    manifold_id := usizeMax, manifold_contact_id := fun _ => u8Max,
    num_contacts := u8Max, elements := fun _ => TwoBodyConstraintElement.zero }

/-- `ContactPointInfos::default()`: the all-zero infos record. -/
def ContactPointInfos.default : ContactPointInfos :=
  { local_p1 := Vec3.zero, local_p2 := Vec3.zero, tangent_vel := Vec3.zero,
    dist := 0, normal_rhs_wo_bias := 0 }

/-- `TwoBodyConstraintBuilder::invalid()`. -/
def TwoBodyConstraintBuilder.invalid : TwoBodyConstraintBuilder :=
  ⟨fun _ => ContactPointInfos.default⟩

/-! ### Tangent-basis computation (dim3), over `ℝ`

`compute_tangent_contact_directions` normalizes the projected relative
velocity, so it is embedded over `ℝ` (square root). -/

/-- Euclidean norm of a real 3-vector. -/
noncomputable def normR (v : Vec3 ℝ) : ℝ := Real.sqrt (v.dot v)

/-- Modelled from the spec: the fallback "arbitrary vector orthonormal to the
normal" (the source's `orthonormal_vector` basis utility is defined outside
`src/`).  Any unit vector orthogonal to the input qualifies; this concrete
choice rotates the projection of the input onto the xy-plane by 90 degrees,
falling back to the x-axis when that projection vanishes. -/
noncomputable def orthonormalVector (v : Vec3 ℝ) : Vec3 ℝ :=
  if v.x = 0 ∧ v.y = 0 then ⟨1, 0, 0⟩
  else (normR ⟨-v.y, v.x, 0⟩)⁻¹ • (⟨-v.y, v.x, 0⟩ : Vec3 ℝ)

/-- `compute_tangent_contact_directions` (the `dim3` scalar instantiation of
the source's `specialize_tangents_calculation!` macro): project the relative
linear velocity onto the plane orthogonal to the force direction, normalize
it and use it as the primary tangent unless its length is below the threshold
`1.0e-4` (the exact rational `1/10000` here), in which case an arbitrary
orthonormal fallback is used; the bitangent is the cross product of the force
direction with the chosen tangent.  `normalize_mut` divides by the norm (the
zero-norm degenerate result is selected away by the fallback, which is why
the source locally disables floating-point exceptions there). -/
noncomputable def compute_tangent_contact_directions
    (force_dir1 linvel1 linvel2 : Vec3 ℝ) : Vec3 ℝ × Vec3 ℝ :=
  let relative_linvel := linvel1 - linvel2
  let tangent_relative_linvel :=
    relative_linvel - (force_dir1.dot relative_linvel) • force_dir1
  let tangent_linvel_norm := normR tangent_relative_linvel
  let normalized := tangent_linvel_norm⁻¹ • tangent_relative_linvel
  let use_fallback := tangent_linvel_norm < 1 / 10000
  let tangent1 := if use_fallback then orthonormalVector force_dir1 else normalized
  let bitangent1 := force_dir1.cross tangent1
  (tangent1, bitangent1)

/-! ### Concrete fixtures used by witnesses and counterexamples -/

/-- Sample integration parameters (all rates nonnegative). -/
def sampleParams : IntegrationParameters :=
  { dt := 1, inv_dt := 1, erp_inv_dt := 1 / 5, cfm_factor := 9 / 10,
    allowed_linear_error := 1 / 100, max_penetration_correction := 2 }

/-- The identity isometry. -/
def sampleIso : Isometry ℚ :=
  ⟨⟨⟨1, 0, 0⟩, ⟨0, 1, 0⟩, ⟨0, 0, 1⟩⟩, ⟨0, 0, 0⟩⟩

/-- Mass properties of a unit-mass body with zero inverse inertia at the
origin. -/
def sampleMprops : RigidBodyMassProps :=
  { effective_inv_mass := ⟨1, 1, 1⟩
    effective_world_inv_inertia_sqrt := ⟨Vec3.zero, Vec3.zero, Vec3.zero⟩
    world_com := Vec3.zero }

/-- Mass properties of a fixed (infinite-mass, infinite-inertia) body: all
inverse contributions are zero. -/
def fixedMprops : RigidBodyMassProps :=
  { effective_inv_mass := Vec3.zero
    effective_world_inv_inertia_sqrt := ⟨Vec3.zero, Vec3.zero, Vec3.zero⟩
    world_com := Vec3.zero }

/-- A fixed body: zero velocity, zero inverse mass and inertia. -/
def fixedBody : RigidBody :=
  { vels := ⟨Vec3.zero, Vec3.zero⟩, mprops := fixedMprops,
    active_set_offset := 0, position := sampleIso }

/-- A body moving downward along z at speed 2. -/
def sampleBody1 : RigidBody :=
  { vels := ⟨⟨0, 0, -2⟩, ⟨0, 0, 0⟩⟩, mprops := sampleMprops,
    active_set_offset := 0, position := sampleIso }

/-- A resting body. -/
def sampleBody2 : RigidBody :=
  { vels := ⟨⟨0, 0, 0⟩, ⟨0, 0, 0⟩⟩, mprops := sampleMprops,
    active_set_offset := 1, position := sampleIso }

/-- The body set for the samples: body 0 approaches body 1 head-on. -/
def sampleBodies : Nat → RigidBody := fun n => if n = 0 then sampleBody1 else sampleBody2

/-- A fixed tangent basis, standing in for the tangent computation where its
value is irrelevant. -/
def fixedTangents : Vec3 ℚ → Vec3 ℚ → Vec3 ℚ → Fin 2 → Vec3 ℚ :=
  fun _ _ _ => ![⟨1, 0, 0⟩, ⟨0, 1, 0⟩]

/-- A bouncy solver contact at the origin with restitution 1/2. -/
def sampleBouncyContact : SolverContact :=
  { point := Vec3.zero, dist := 0, friction := 1 / 2, restitution := 1 / 2,
    tangent_velocity := Vec3.zero, bouncy := true, contact_id := 0 }

/-- A manifold holding the bouncy contact, with normal `-z` (so the force
direction on body 1 is `+z`) and a stored point already carrying nonzero
impulses (normal 5, tangent (7, 1)). -/
def sampleManifold : ContactManifold :=
  { data :=
      { rigid_body1 := 0, rigid_body2 := 1, normal := ⟨0, 0, -1⟩,
        relative_dominance := 0, solver_contacts := [sampleBouncyContact] }
    points := [⟨⟨5, ⟨7, 1⟩⟩⟩] }

/-- A sample contact-point info with positive separation (1/2). -/
def sampleInfo : ContactPointInfos :=
  { local_p1 := Vec3.zero, local_p2 := Vec3.zero, tangent_vel := Vec3.zero,
    dist := 1 / 2, normal_rhs_wo_bias := 0 }

/-- A sample builder whose every slot holds `sampleInfo`. -/
def sampleBuilder : TwoBodyConstraintBuilder := ⟨fun _ => sampleInfo⟩

/-- An element carrying nonzero per-substep and accumulated impulses. -/
def sampleElement : TwoBodyConstraintElement :=
  { normal_part :=
      { gcross1 := Vec3.zero, gcross2 := Vec3.zero, rhs := 4,
        rhs_wo_bias := 3, impulse := 2, total_impulse := 3, r := 1 }
    tangent_part :=
      { gcross1 := fun _ => Vec3.zero, gcross2 := fun _ => Vec3.zero,
        rhs := fun _ => 4, rhs_wo_bias := fun _ => 3, impulse := ⟨1, 2⟩,
        total_impulse := ⟨3, 4⟩, r := fun _ => 1 } }

/-- A sample one-contact constraint whose element is `sampleElement`. -/
def sampleConstraint : TwoBodyConstraint :=
  { dir1 := ⟨0, 0, 1⟩, tangent1 := ⟨1, 0, 0⟩, im1 := ⟨1, 1, 1⟩, im2 := ⟨1, 1, 1⟩,
    cfm_factor := 9 / 10, limit := 1 / 2, solver_vel1 := 0, solver_vel2 := 1,
    manifold_id := 0, manifold_contact_id := fun _ => 0, num_contacts := 1,
    elements := fun _ => sampleElement }

/-- A two-contact constraint with distinct contact identifiers `0` and `1`,
used to exercise the writeback copy. -/
def twoContactConstraint : TwoBodyConstraint :=
  { sampleConstraint with
    num_contacts := 2
    manifold_contact_id := fun i => i.val
    elements := fun i => if i.val = 0 then sampleElement else TwoBodyConstraintElement.zero }

/-- A manifold with two stored points carrying nonzero impulses, matching
`twoContactConstraint`. -/
def twoPointManifold : ContactManifold :=
  { data :=
      { rigid_body1 := 0, rigid_body2 := 1, normal := ⟨0, 0, -1⟩,
        relative_dominance := 0, solver_contacts := [] }
    points := [⟨⟨5, ⟨7, 1⟩⟩⟩, ⟨⟨6, ⟨8, 2⟩⟩⟩, ⟨⟨9, ⟨1, 1⟩⟩⟩] }

/-! ### Unfolding lemmas for the vector instances -/

theorem Vec3.add_def {α : Type} [Add α] (a b : Vec3 α) :
    a + b = ⟨a.x + b.x, a.y + b.y, a.z + b.z⟩ := rfl

theorem Vec3.sub_def {α : Type} [Sub α] (a b : Vec3 α) :
    a - b = ⟨a.x - b.x, a.y - b.y, a.z - b.z⟩ := rfl

theorem Vec3.neg_def {α : Type} [Neg α] (a : Vec3 α) : -a = ⟨-a.x, -a.y, -a.z⟩ := rfl

theorem Vec3.smul_def {α : Type} [Mul α] (c : α) (a : Vec3 α) :
    c • a = ⟨c * a.x, c * a.y, c * a.z⟩ := rfl

theorem Vec2.add2_def {α : Type} [Add α] (a b : Vec2 α) :
    a + b = ⟨a.x + b.x, a.y + b.y⟩ := rfl

/-! ### Claim theorems -/

/-- C10: `remove_cfm_and_bias_from_rhs` is idempotent: calling it twice in a
row yields exactly the same constraint state (same right-hand sides, same
`cfm_factor`, same everything) as calling it once, because the second call
rewrites `cfm_factor` to `1` again and each `rhs` to the unchanged
`rhs_wo_bias`. -/
theorem c10_remove_bias_idempotent (c : TwoBodyConstraint) :
    c.remove_cfm_and_bias_from_rhs.remove_cfm_and_bias_from_rhs =
      c.remove_cfm_and_bias_from_rhs := rfl

/-- C4: after `remove_cfm_and_bias_from_rhs`, `cfm_factor = 1` and every
element's normal and tangent `rhs` equals its `rhs_wo_bias`; each part equals
the old part with only `rhs` overwritten (so `impulse` and `total_impulse`
are untouched — the accumulated impulse is not restored into the per-substep
impulse), and every other field of the constraint is unchanged. -/
theorem c4_remove_bias_fields (c : TwoBodyConstraint) :
    c.remove_cfm_and_bias_from_rhs.cfm_factor = 1 ∧
    (∀ i,
      (c.remove_cfm_and_bias_from_rhs.elements i).normal_part.rhs =
        (c.remove_cfm_and_bias_from_rhs.elements i).normal_part.rhs_wo_bias ∧
      (c.remove_cfm_and_bias_from_rhs.elements i).tangent_part.rhs =
        (c.remove_cfm_and_bias_from_rhs.elements i).tangent_part.rhs_wo_bias ∧
      (c.remove_cfm_and_bias_from_rhs.elements i).normal_part =
        { (c.elements i).normal_part with rhs := (c.elements i).normal_part.rhs_wo_bias } ∧
      (c.remove_cfm_and_bias_from_rhs.elements i).tangent_part =
        { (c.elements i).tangent_part with rhs := (c.elements i).tangent_part.rhs_wo_bias } ∧
      (c.remove_cfm_and_bias_from_rhs.elements i).normal_part.impulse =
        (c.elements i).normal_part.impulse ∧
      (c.remove_cfm_and_bias_from_rhs.elements i).normal_part.total_impulse =
        (c.elements i).normal_part.total_impulse ∧
      (c.remove_cfm_and_bias_from_rhs.elements i).tangent_part.impulse =
        (c.elements i).tangent_part.impulse ∧
      (c.remove_cfm_and_bias_from_rhs.elements i).tangent_part.total_impulse =
        (c.elements i).tangent_part.total_impulse) ∧
    c.remove_cfm_and_bias_from_rhs.dir1 = c.dir1 ∧
    c.remove_cfm_and_bias_from_rhs.tangent1 = c.tangent1 ∧
    c.remove_cfm_and_bias_from_rhs.im1 = c.im1 ∧
    c.remove_cfm_and_bias_from_rhs.im2 = c.im2 ∧
    c.remove_cfm_and_bias_from_rhs.limit = c.limit ∧
    c.remove_cfm_and_bias_from_rhs.solver_vel1 = c.solver_vel1 ∧
    c.remove_cfm_and_bias_from_rhs.solver_vel2 = c.solver_vel2 ∧
    c.remove_cfm_and_bias_from_rhs.manifold_id = c.manifold_id ∧
    c.remove_cfm_and_bias_from_rhs.manifold_contact_id = c.manifold_contact_id ∧
    c.remove_cfm_and_bias_from_rhs.num_contacts = c.num_contacts :=
  by
  refine ⟨rfl, fun i => ?_, rfl, rfl, rfl, rfl, rfl, rfl, rfl, rfl, rfl, rfl⟩
  refine ⟨rfl, rfl, ?_, ?_, rfl, rfl, rfl, rfl⟩ <;> rfl

/-- C9: `generate` fails (assertion, modelled as `none`: no builder or
constraint output is produced) exactly for manifolds whose relative dominance
is nonzero; for zero relative dominance the assertion passes and an output is
produced. -/
theorem c9_dominance_assertion
    (computeTangents : Vec3 ℚ → Vec3 ℚ → Vec3 ℚ → Fin 2 → Vec3 ℚ)
    (manifold_id : Nat) (manifold : ContactManifold) (bodies : Nat → RigidBody)
    (out_builders : List TwoBodyConstraintBuilder)
    (out_constraints : List TwoBodyConstraint) :
    generate computeTangents manifold_id manifold bodies out_builders out_constraints =
        none ↔
      manifold.data.relative_dominance ≠ 0 := by
  by_cases h : manifold.data.relative_dominance = 0 <;> simp [generate, h]

/-- C5: for every active element (index below `num_contacts`),
`update_with_positions` adds the previous per-substep impulse into the
accumulated `total_impulse` and resets the per-substep impulse to zero, for
both the normal and the tangent part. -/
theorem c5_update_accumulates_and_resets (self : TwoBodyConstraintBuilder)
    (params : IntegrationParameters) (solved_dt : ℚ) (rb1_pos rb2_pos : Isometry ℚ)
    (ccd_thickness : ℚ) (c : TwoBodyConstraint) (i : Fin MAX_MANIFOLD_POINTS)
    (hi : i.val < c.num_contacts) :
    ((self.update_with_positions params solved_dt rb1_pos rb2_pos ccd_thickness
          c).elements i).normal_part.total_impulse =
        (c.elements i).normal_part.total_impulse + (c.elements i).normal_part.impulse ∧
    ((self.update_with_positions params solved_dt rb1_pos rb2_pos ccd_thickness
          c).elements i).normal_part.impulse = 0 ∧
    ((self.update_with_positions params solved_dt rb1_pos rb2_pos ccd_thickness
          c).elements i).tangent_part.total_impulse =
        (c.elements i).tangent_part.total_impulse + (c.elements i).tangent_part.impulse ∧
    ((self.update_with_positions params solved_dt rb1_pos rb2_pos ccd_thickness
          c).elements i).tangent_part.impulse = Vec2.zero := by
  have h : (self.update_with_positions params solved_dt rb1_pos rb2_pos ccd_thickness
        c).elements i =
      updateElement params solved_dt rb1_pos rb2_pos c.dir1
        ![c.tangent1, c.dir1.cross c.tangent1] (self.infos i) (c.elements i) := by
    simp only [TwoBodyConstraintBuilder.update_with_positions]
    exact if_pos hi
  rw [h]
  exact ⟨rfl, rfl, rfl, rfl⟩

/-- C5 witness: concrete application at a one-contact constraint whose element
carries nonzero impulses. -/
theorem c5_witness :
    (0 : Nat) < sampleConstraint.num_contacts ∧
    (((sampleBuilder.update_with_positions sampleParams 0 sampleIso sampleIso 1
          sampleConstraint).elements 0).normal_part.total_impulse =
        (sampleConstraint.elements 0).normal_part.total_impulse +
          (sampleConstraint.elements 0).normal_part.impulse ∧
      ((sampleBuilder.update_with_positions sampleParams 0 sampleIso sampleIso 1
          sampleConstraint).elements 0).normal_part.impulse = 0 ∧
      ((sampleBuilder.update_with_positions sampleParams 0 sampleIso sampleIso 1
          sampleConstraint).elements 0).tangent_part.total_impulse =
        (sampleConstraint.elements 0).tangent_part.total_impulse +
          (sampleConstraint.elements 0).tangent_part.impulse ∧
      ((sampleBuilder.update_with_positions sampleParams 0 sampleIso sampleIso 1
          sampleConstraint).elements 0).tangent_part.impulse = Vec2.zero) :=
  ⟨by decide,
    c5_update_accumulates_and_resets sampleBuilder sampleParams 0 sampleIso sampleIso 1
      sampleConstraint 0 (by decide)⟩

/-- C7: in `generate`, a zero normal-direction effective-mass denominator
(linear inverse-mass contribution along the force direction plus both angular
gcross contributions) yields a stored projected mass `r` of exactly zero for
that contact point — the inverse of zero is defined as zero, never a division
by zero. -/
theorem c7_zero_denominator_zero_projected_mass (manifold_id : Nat)
    (rb1 rb2 : RigidBody) (force_dir1 : Vec3 ℚ) (tangents1 : Fin 2 → Vec3 ℚ)
    (manifold_points : List SolverContact) (builder : TwoBodyConstraintBuilder)
    (constraint : TwoBodyConstraint) (k : Fin MAX_MANIFOLD_POINTS)
    (hk : k.val < manifold_points.length)
    (hden : normalDenom rb1.mprops rb2.mprops force_dir1
        (manifold_points.get ⟨k.val, hk⟩).point = 0) :
    (((generateChunk manifold_id rb1 rb2 force_dir1 tangents1 manifold_points builder
          constraint).2.elements k).normal_part).r = 0 := by
  simp only [List.get_eq_getElem] at hden
  simp [generateChunk, generatePoint, hk, utilsInv, hden]

/-- C7 witness: two fixed bodies (all inverse mass and inverse inertia zero)
give a zero denominator and a zero stored projected mass. -/
theorem c7_witness :
    (0 : Nat) < [sampleBouncyContact].length ∧
    normalDenom fixedBody.mprops fixedBody.mprops ⟨0, 0, 1⟩
      ([sampleBouncyContact].get ⟨0, by decide⟩).point = 0 ∧
    (((generateChunk 0 fixedBody fixedBody ⟨0, 0, 1⟩
          (fixedTangents ⟨0, 0, 1⟩ Vec3.zero Vec3.zero) [sampleBouncyContact]
          TwoBodyConstraintBuilder.invalid TwoBodyConstraint.invalid).2.elements
        0).normal_part).r = 0 := by
  have hden : normalDenom fixedBody.mprops fixedBody.mprops ⟨0, 0, 1⟩
      ([sampleBouncyContact].get ⟨0, by decide⟩).point = 0 := by
    norm_num [normalDenom, fixedBody, fixedMprops, sampleBouncyContact, sampleIso,
      Vec3.dot, Vec3.cross, Vec3.compMul, Vec3.zero, Vec3.add_def, Vec3.sub_def,
      Vec3.neg_def, Mat3.transform_vector]
  exact ⟨by decide, hden,
    c7_zero_denominator_zero_projected_mass 0 fixedBody fixedBody ⟨0, 0, 1⟩
      (fixedTangents ⟨0, 0, 1⟩ Vec3.zero Vec3.zero) [sampleBouncyContact]
      TwoBodyConstraintBuilder.invalid TwoBodyConstraint.invalid 0 (by decide) hden⟩

/-- C1: if the current separation computed by `update_with_positions` exceeds
`allowed_linear_error` (itself nonnegative), then the normal bias term is
exactly zero and that point's `rhs` equals its `rhs_wo_bias`; and in general
(for nonnegative `erp_inv_dt` and `max_penetration_correction`) the bias term
lies in the interval `[-erp_inv_dt * max_penetration_correction, 0]`. -/
theorem c1_separating_contacts_no_bias (params : IntegrationParameters) (solved_dt : ℚ)
    (rb1_pos rb2_pos : Isometry ℚ) (dir1 : Vec3 ℚ) (tangents1 : Fin 2 → Vec3 ℚ)
    (info : ContactPointInfos) (element : TwoBodyConstraintElement)
    (h_ale : 0 ≤ params.allowed_linear_error)
    (h_erp : 0 ≤ params.erp_inv_dt)
    (h_mpc : 0 ≤ params.max_penetration_correction) :
    (params.allowed_linear_error < updatedDist solved_dt rb1_pos rb2_pos dir1 info →
      normalBias params (updatedDist solved_dt rb1_pos rb2_pos dir1 info) = 0 ∧
      (updateElement params solved_dt rb1_pos rb2_pos dir1 tangents1 info
          element).normal_part.rhs =
        (updateElement params solved_dt rb1_pos rb2_pos dir1 tangents1 info
          element).normal_part.rhs_wo_bias) ∧
    ∀ d : ℚ,
      -(params.erp_inv_dt * params.max_penetration_correction) ≤ normalBias params d ∧
      normalBias params d ≤ 0 := by
  constructor
  · intro hd
    have hpos : (0 : ℚ) <
        updatedDist solved_dt rb1_pos rb2_pos dir1 info + params.allowed_linear_error := by
      linarith
    have hbias : normalBias params (updatedDist solved_dt rb1_pos rb2_pos dir1 info) = 0 := by
      unfold normalBias clamp
      rw [min_eq_right (le_trans hpos.le (le_max_left _ _)), mul_zero]
    refine ⟨hbias, ?_⟩
    simp [updateElement, hbias]
  · intro d
    have hC1 : -params.max_penetration_correction ≤
        clamp (d + params.allowed_linear_error) (-params.max_penetration_correction) 0 :=
      le_min (le_max_right _ _) (by linarith)
    have hC2 : clamp (d + params.allowed_linear_error)
        (-params.max_penetration_correction) 0 ≤ 0 := min_le_right _ _
    constructor
    · have h := mul_le_mul_of_nonneg_left hC1 h_erp
      have h2 : params.erp_inv_dt * -params.max_penetration_correction =
          -(params.erp_inv_dt * params.max_penetration_correction) := by ring
      unfold normalBias
      linarith
    · have h := mul_le_mul_of_nonneg_left hC2 h_erp
      unfold normalBias
      linarith [h, mul_zero params.erp_inv_dt]

/-- C1 witness: concrete application with separation `1/2` above the slop
`1/100` and nonnegative rates. -/
theorem c1_witness :
    (0 : ℚ) ≤ sampleParams.allowed_linear_error ∧
    (0 : ℚ) ≤ sampleParams.erp_inv_dt ∧
    (0 : ℚ) ≤ sampleParams.max_penetration_correction ∧
    ((sampleParams.allowed_linear_error <
        updatedDist 0 sampleIso sampleIso ⟨0, 0, 1⟩ sampleInfo →
      normalBias sampleParams (updatedDist 0 sampleIso sampleIso ⟨0, 0, 1⟩ sampleInfo) = 0 ∧
      (updateElement sampleParams 0 sampleIso sampleIso ⟨0, 0, 1⟩
          (fixedTangents ⟨0, 0, 1⟩ Vec3.zero Vec3.zero) sampleInfo
          sampleElement).normal_part.rhs =
        (updateElement sampleParams 0 sampleIso sampleIso ⟨0, 0, 1⟩
          (fixedTangents ⟨0, 0, 1⟩ Vec3.zero Vec3.zero) sampleInfo
          sampleElement).normal_part.rhs_wo_bias) ∧
    ∀ d : ℚ,
      -(sampleParams.erp_inv_dt * sampleParams.max_penetration_correction) ≤
          normalBias sampleParams d ∧
        normalBias sampleParams d ≤ 0) :=
  ⟨by norm_num [sampleParams], by norm_num [sampleParams], by norm_num [sampleParams],
    c1_separating_contacts_no_bias sampleParams 0 sampleIso sampleIso ⟨0, 0, 1⟩
      (fixedTangents ⟨0, 0, 1⟩ Vec3.zero Vec3.zero) sampleInfo sampleElement
      (by norm_num [sampleParams]) (by norm_num [sampleParams])
      (by norm_num [sampleParams])⟩

/-- C2: `update_with_positions` sets `cfm_factor` to the neutral `1` exactly
when some active contact point's predicted full-step normal correction
`-new_rhs * dt` exceeds half the combined CCD thickness, and to the
integration parameters' cfm factor otherwise; and the whole result is
independent of the input constraint's `cfm_factor` (the classification starts
from scratch on every call — nothing is carried over). -/
theorem c2_fast_contact_classification (self : TwoBodyConstraintBuilder)
    (params : IntegrationParameters) (solved_dt : ℚ) (rb1_pos rb2_pos : Isometry ℚ)
    (ccd_thickness : ℚ) (c : TwoBodyConstraint) :
    ((self.update_with_positions params solved_dt rb1_pos rb2_pos ccd_thickness
        c).cfm_factor =
      if ∃ i : Fin MAX_MANIFOLD_POINTS, i.val < c.num_contacts ∧
          -(updatedNewRhs params solved_dt rb1_pos rb2_pos c.dir1 (self.infos i)) *
              params.dt >
            ccd_thickness * (1 / 2)
        then 1 else params.cfm_factor) ∧
    ∀ x : ℚ,
      self.update_with_positions params solved_dt rb1_pos rb2_pos ccd_thickness
          { c with cfm_factor := x } =
        self.update_with_positions params solved_dt rb1_pos rb2_pos ccd_thickness c := by
  constructor
  · have hb : ((List.finRange MAX_MANIFOLD_POINTS).any fun i =>
        decide (i.val < c.num_contacts) &&
          decide (-(updatedNewRhs params solved_dt rb1_pos rb2_pos c.dir1
              (self.infos i)) * params.dt > ccd_thickness * (1 / 2))) = true ↔
        ∃ i : Fin MAX_MANIFOLD_POINTS, i.val < c.num_contacts ∧
          -(updatedNewRhs params solved_dt rb1_pos rb2_pos c.dir1 (self.infos i)) *
              params.dt >
            ccd_thickness * (1 / 2) := by
      simp [List.any_eq_true, List.mem_finRange]
    simp only [TwoBodyConstraintBuilder.update_with_positions]
    by_cases hP : ∃ i : Fin MAX_MANIFOLD_POINTS, i.val < c.num_contacts ∧
        -(updatedNewRhs params solved_dt rb1_pos rb2_pos c.dir1 (self.infos i)) *
            params.dt >
          ccd_thickness * (1 / 2)
    · rw [if_pos (hb.mpr hP), if_pos hP]
    · rw [if_neg fun hbt => hP (hb.mp hbt), if_neg hP]
  · intro x
    rfl

/-- C6 counterexample: `generate` on a bouncy contact (restitution `1/2`,
relative normal-approach velocity `-2`) stores the restitution contribution
`-1` only in the builder's `ContactPointInfos`; the constraint element's
`normal_part.rhs_wo_bias` is initialized to `0`, not to the restitution
contribution — so the value is NOT "placed in both the constraint element's
state and the builder's ContactPointInfos" as the claim states. -/
theorem c6_counterexample :
    ((generate fixedTangents 0 sampleManifold sampleBodies
        [TwoBodyConstraintBuilder.invalid] [TwoBodyConstraint.invalid]).map fun out =>
      (out.1.map fun b => (b.infos 0).normal_rhs_wo_bias,
        out.2.map fun k => (k.elements 0).normal_part.rhs_wo_bias)) =
      some ([-1], [0]) ∧
    (-1 : ℚ) ≠ 0 := by
  constructor
  · have hch : sampleManifold.data.solver_contacts.toChunks MAX_MANIFOLD_POINTS =
        [[sampleBouncyContact]] := rfl
    norm_num [generate, generateLoop, generateChunk, generatePoint, hch, sampleManifold,
      sampleBodies, sampleBody1, sampleBody2, sampleMprops, sampleIso,
      sampleBouncyContact, fixedTangents, normalDenom, utilsInv, Vec3.dot, Vec3.cross,
      Vec3.compMul, Vec3.zero, Vec3.add_def, Vec3.sub_def, Vec3.neg_def,
      Mat3.transform_vector]
  · norm_num

/-- C6 amended: for every contact point processed by `generate`'s inner loop,
the restitution right-hand-side contribution — equal to the point's
restitution coefficient times the relative normal-approach velocity at the
point when the point is bouncy, and zero otherwise — is stored in the
builder's `ContactPointInfos` only; the constraint element's
`normal_part.rhs_wo_bias` is initialized to zero. -/
theorem c6_restitution_rhs_in_builder_only (mprops1 mprops2 : RigidBodyMassProps)
    (vels1 vels2 : RigidBodyVels) (rb1_pos rb2_pos : Isometry ℚ) (force_dir1 : Vec3 ℚ)
    (tangents1 : Fin 2 → Vec3 ℚ) (manifold_point : SolverContact)
    (oldElt : TwoBodyConstraintElement) :
    ((generatePoint mprops1 mprops2 vels1 vels2 rb1_pos rb2_pos force_dir1 tangents1
          manifold_point oldElt).2).normal_rhs_wo_bias =
      (if manifold_point.bouncy then manifold_point.restitution else 0) *
        (((vels1.linvel + vels1.angvel.cross (manifold_point.point - mprops1.world_com)) -
            (vels2.linvel +
              vels2.angvel.cross (manifold_point.point - mprops2.world_com))).dot
          force_dir1) ∧
    ((generatePoint mprops1 mprops2 vels1 vels2 rb1_pos rb2_pos force_dir1 tangents1
          manifold_point oldElt).1).normal_part.rhs_wo_bias = 0 := by
  constructor
  · rcases hb : manifold_point.bouncy <;> simp [generatePoint, hb]
  · rfl

/-- Slots not referenced by any index in `ks` are untouched by the writeback
loop. -/
theorem writebackLoop_get_ne (c : TwoBodyConstraint)
    (ks : List (Fin MAX_MANIFOLD_POINTS)) (points : List Contact) (p : Nat)
    (hp : ∀ k ∈ ks, c.manifold_contact_id k ≠ p) :
    (writebackLoop c ks points).get? p = points.get? p := by
  induction ks generalizing points with
  | nil => rfl
  | cons k ks ih =>
    rw [writebackLoop, ih _ fun k' hk' => hp k' (List.mem_cons_of_mem _ hk')]
    exact List.get?_set_ne _ _ (hp k (List.mem_cons_self _ _))

/-- The writeback loop preserves the number of stored points. -/
theorem writebackLoop_length (c : TwoBodyConstraint)
    (ks : List (Fin MAX_MANIFOLD_POINTS)) (points : List Contact) :
    (writebackLoop c ks points).length = points.length := by
  induction ks generalizing points with
  | nil => rfl
  | cons k ks ih =>
    rw [writebackLoop, ih, writebackPoint, List.length_set]

/-- Under distinct in-range contact identifiers, the writeback loop stores
element `k`'s impulses at slot `manifold_contact_id k`. -/
theorem writebackLoop_get_mem (c : TwoBodyConstraint)
    (ks : List (Fin MAX_MANIFOLD_POINTS)) :
    ∀ (points : List Contact) (k : Fin MAX_MANIFOLD_POINTS), k ∈ ks → ks.Nodup →
      (∀ k' ∈ ks, c.manifold_contact_id k' = c.manifold_contact_id k → k' = k) →
      c.manifold_contact_id k < points.length →
      (writebackLoop c ks points).get? (c.manifold_contact_id k) =
        some ⟨⟨(c.elements k).normal_part.impulse,
          (c.elements k).tangent_part.impulse⟩⟩ := by
  induction ks with
  | nil =>
    intro points k hk
    cases hk
  | cons k0 ks ih =>
    intro points k hk hnodup hinj hlen
    rw [writebackLoop]
    rcases List.mem_cons.mp hk with hk0 | hkrest
    · subst hk0
      have hrest : ∀ k' ∈ ks, c.manifold_contact_id k' ≠ c.manifold_contact_id k := by
        intro k' hk' heq
        have hkk : k' = k := hinj k' (List.mem_cons_of_mem _ hk') heq
        subst hkk
        exact absurd hk' (List.nodup_cons.mp hnodup).1
      rw [writebackLoop_get_ne c ks _ _ hrest]
      exact List.get?_set_eq_of_lt _ hlen
    · exact ih (writebackPoint c k0 points) k hkrest (List.nodup_cons.mp hnodup).2
        (fun k' hk' => hinj k' (List.mem_cons_of_mem _ hk'))
        (by unfold writebackPoint; rw [List.length_set]; exact hlen)

/-- Membership in the active index list means being below `num_contacts`. -/
theorem mem_activeIndices (c : TwoBodyConstraint) (k : Fin MAX_MANIFOLD_POINTS) :
    k ∈ activeIndices c ↔ k.val < c.num_contacts := by
  simp [activeIndices, List.mem_filter, List.mem_finRange]

/-- C8 counterexample: build constraints from a manifold whose stored point
already carries normal impulse `5`, call `writeback_impulses` with no
intervening solve — the stored impulse becomes `0` (the element impulses that
`generate` zero-initialized), not the previously present `5`.  The claim that
the round trip "leaves every impulse already stored in the manifold
unchanged" is false of the code. -/
theorem c8_counterexample :
    ((generate fixedTangents 0 sampleManifold sampleBodies
        [TwoBodyConstraintBuilder.invalid] [TwoBodyConstraint.invalid]).map fun out =>
      out.2.map fun k =>
        (k.writeback_impulses [sampleManifold]).map fun m =>
          m.points.map fun p => p.data.impulse) =
      some [[[0]]] ∧
    sampleManifold.points.map (fun p => p.data.impulse) = [5] ∧ (5 : ℚ) ≠ 0 :=
  ⟨rfl, rfl, by norm_num⟩

/-- C8 amended: `writeback_impulses` is a pure copy of the constraint
elements' impulses into the manifold points matched by the manifold-local
contact identifier — each referenced point's stored impulses become exactly
the corresponding element's impulses (which `generate` initializes to zero,
so with zero solve iterations pre-existing manifold impulses at referenced
points are overwritten with zero rather than preserved), and points not
referenced by any active contact identifier are unchanged. -/
theorem c8_writeback_pure_copy (c : TwoBodyConstraint) (ms : List ContactManifold)
    (m : ContactManifold) (hm : ms.get? c.manifold_id = some m)
    (hrange : ∀ j : Fin MAX_MANIFOLD_POINTS, j.val < c.num_contacts →
      c.manifold_contact_id j < m.points.length)
    (hinj : ∀ j j' : Fin MAX_MANIFOLD_POINTS, j.val < c.num_contacts →
      j'.val < c.num_contacts → c.manifold_contact_id j = c.manifold_contact_id j' →
      j = j')
    (k : Fin MAX_MANIFOLD_POINTS) (hk : k.val < c.num_contacts) :
    ∃ m2, (c.writeback_impulses ms).get? c.manifold_id = some m2 ∧
      m2.points.get? (c.manifold_contact_id k) =
        some ⟨⟨(c.elements k).normal_part.impulse,
          (c.elements k).tangent_part.impulse⟩⟩ ∧
      ∀ p : Nat,
        (∀ j : Fin MAX_MANIFOLD_POINTS, j.val < c.num_contacts →
          c.manifold_contact_id j ≠ p) →
        m2.points.get? p = m.points.get? p := by
  refine ⟨{ m with points := writebackLoop c (activeIndices c) m.points }, ?_, ?_, ?_⟩
  · unfold TwoBodyConstraint.writeback_impulses
    rw [hm]
    have hlt : c.manifold_id < ms.length := by
      by_contra hge
      rw [List.get?_eq_none.mpr (le_of_not_lt hge)] at hm
      cases hm
    exact List.get?_set_eq_of_lt _ hlt
  · exact writebackLoop_get_mem c (activeIndices c) m.points k
      ((mem_activeIndices c k).mpr hk)
      (List.Nodup.filter _ (List.nodup_finRange _))
      (fun k' hk' heq => hinj k' k ((mem_activeIndices c k').mp hk') hk heq)
      (hrange k hk)
  · intro p hp
    exact writebackLoop_get_ne c (activeIndices c) m.points p
      fun k' hk' => hp k' ((mem_activeIndices c k').mp hk')

/-- C8 amended witness: a two-contact constraint with distinct contact ids
`0` and `1` writing into a three-point manifold; the third point — referenced
by no contact id — keeps its stored impulse. -/
theorem c8_witness :
    [twoPointManifold].get? twoContactConstraint.manifold_id = some twoPointManifold ∧
    (∀ j : Fin MAX_MANIFOLD_POINTS, j.val < twoContactConstraint.num_contacts →
      twoContactConstraint.manifold_contact_id j < twoPointManifold.points.length) ∧
    (∀ j j' : Fin MAX_MANIFOLD_POINTS, j.val < twoContactConstraint.num_contacts →
      j'.val < twoContactConstraint.num_contacts →
      twoContactConstraint.manifold_contact_id j =
        twoContactConstraint.manifold_contact_id j' → j = j') ∧
    (0 : Nat) < twoContactConstraint.num_contacts ∧
    (∃ m2, (twoContactConstraint.writeback_impulses
          [twoPointManifold]).get? twoContactConstraint.manifold_id = some m2 ∧
      m2.points.get? (twoContactConstraint.manifold_contact_id 0) =
        some ⟨⟨(twoContactConstraint.elements 0).normal_part.impulse,
          (twoContactConstraint.elements 0).tangent_part.impulse⟩⟩ ∧
      ∀ p : Nat,
        (∀ j : Fin MAX_MANIFOLD_POINTS, j.val < twoContactConstraint.num_contacts →
          twoContactConstraint.manifold_contact_id j ≠ p) →
        m2.points.get? p = twoPointManifold.points.get? p) :=
  ⟨rfl, by decide, by decide, by decide,
    c8_writeback_pure_copy twoContactConstraint [twoPointManifold] twoPointManifold rfl
      (by decide) (by decide) 0 (by decide)⟩

/-! ### Norm and orthogonality lemmas for the tangent-basis computation -/

theorem Vec3.dot_self_nonneg (v : Vec3 ℝ) : 0 ≤ v.dot v := by
  have hx := mul_self_nonneg v.x
  have hy := mul_self_nonneg v.y
  have hz := mul_self_nonneg v.z
  unfold Vec3.dot
  linarith

theorem normR_smul (c : ℝ) (v : Vec3 ℝ) : normR (c • v) = |c| * normR v := by
  unfold normR
  rw [Vec3.smul_def]
  have h : Vec3.dot ⟨c * v.x, c * v.y, c * v.z⟩ ⟨c * v.x, c * v.y, c * v.z⟩ =
      c ^ 2 * v.dot v := by
    unfold Vec3.dot
    ring
  rw [h, Real.sqrt_mul (sq_nonneg c), Real.sqrt_sq_eq_abs]

/-- Normalizing a vector of positive norm yields a unit vector. -/
theorem normR_normalize (v : Vec3 ℝ) (h : 0 < normR v) :
    normR ((normR v)⁻¹ • v) = 1 := by
  rw [normR_smul, abs_of_pos (inv_pos.mpr h), inv_mul_cancel₀ h.ne']

theorem Vec3.smul_dot (c : ℝ) (a b : Vec3 ℝ) : (c • a).dot b = c * a.dot b := by
  simp only [Vec3.smul_def, Vec3.dot]
  ring

/-- Projecting away the component along a unit vector yields a vector
orthogonal to it. -/
theorem Vec3.proj_dot (a r : Vec3 ℝ) (h : a.dot a = 1) :
    ((r - (a.dot r) • a).dot a) = 0 := by
  simp only [Vec3.sub_def, Vec3.smul_def, Vec3.dot] at h ⊢
  linear_combination (-(a.x * r.x + a.y * r.y + a.z * r.z)) * h

/-- The modelled fallback is orthogonal to its input. -/
theorem orthonormalVector_dot (v : Vec3 ℝ) : (orthonormalVector v).dot v = 0 := by
  unfold orthonormalVector
  split
  · rename_i h
    simp [Vec3.dot, h.1]
  · simp only [Vec3.smul_def, Vec3.dot]
    ring

/-- The modelled fallback is a unit vector. -/
theorem orthonormalVector_normR (v : Vec3 ℝ) : normR (orthonormalVector v) = 1 := by
  unfold orthonormalVector
  split
  · unfold normR Vec3.dot
    norm_num
  · rename_i h
    have hw : 0 < normR ⟨-v.y, v.x, 0⟩ := by
      unfold normR
      apply Real.sqrt_pos.mpr
      unfold Vec3.dot
      dsimp only
      push_neg at h
      rcases eq_or_ne v.x 0 with hx | hx
      · have hy := h hx
        nlinarith [mul_self_nonneg v.x, mul_self_pos.mpr hy]
      · nlinarith [mul_self_nonneg v.y, mul_self_pos.mpr hx]
    exact normR_normalize _ hw

/-- C3: for a unit force direction, `compute_tangent_contact_directions`
returns as bitangent the cross product of the force direction with the
primary tangent; the primary tangent is always a unit vector orthogonal to
the force direction, and whenever the projection of the relative linear
velocity onto the plane orthogonal to the force direction has length above
the threshold `1/10000` (`1.0e-4`), the primary tangent is exactly that
projection normalized.  (The result is a function of the force direction and
the two linear velocities only.) -/
theorem c3_tangent_directions (force_dir1 linvel1 linvel2 : Vec3 ℝ)
    (hdir : normR force_dir1 = 1) :
    (compute_tangent_contact_directions force_dir1 linvel1 linvel2).2 =
      force_dir1.cross (compute_tangent_contact_directions force_dir1 linvel1 linvel2).1 ∧
    (compute_tangent_contact_directions force_dir1 linvel1 linvel2).1.dot force_dir1 = 0 ∧
    normR (compute_tangent_contact_directions force_dir1 linvel1 linvel2).1 = 1 ∧
    (1 / 10000 <
        normR ((linvel1 - linvel2) - (force_dir1.dot (linvel1 - linvel2)) • force_dir1) →
      (compute_tangent_contact_directions force_dir1 linvel1 linvel2).1 =
        (normR ((linvel1 - linvel2) -
            (force_dir1.dot (linvel1 - linvel2)) • force_dir1))⁻¹ •
          ((linvel1 - linvel2) - (force_dir1.dot (linvel1 - linvel2)) • force_dir1)) := by
  have hdd : force_dir1.dot force_dir1 = 1 := by
    have h0 := Vec3.dot_self_nonneg force_dir1
    rw [← Real.sq_sqrt h0]
    unfold normR at hdir
    rw [hdir]
    norm_num
  have hproj := Vec3.proj_dot force_dir1 (linvel1 - linvel2) hdd
  by_cases hcase : normR ((linvel1 - linvel2) -
      (force_dir1.dot (linvel1 - linvel2)) • force_dir1) < 1 / 10000
  · have h1 : (compute_tangent_contact_directions force_dir1 linvel1 linvel2).1 =
        orthonormalVector force_dir1 := by
      simp only [compute_tangent_contact_directions]
      rw [if_pos hcase]
    refine ⟨rfl, ?_, ?_, ?_⟩
    · rw [h1]
      exact orthonormalVector_dot force_dir1
    · rw [h1]
      exact orthonormalVector_normR force_dir1
    · intro hgt
      exact absurd hcase (not_lt.mpr hgt.le)
  · have h1 : (compute_tangent_contact_directions force_dir1 linvel1 linvel2).1 =
        (normR ((linvel1 - linvel2) -
            (force_dir1.dot (linvel1 - linvel2)) • force_dir1))⁻¹ •
          ((linvel1 - linvel2) - (force_dir1.dot (linvel1 - linvel2)) • force_dir1) := by
      simp only [compute_tangent_contact_directions]
      rw [if_neg hcase]
    have hpos : 0 < normR ((linvel1 - linvel2) -
        (force_dir1.dot (linvel1 - linvel2)) • force_dir1) :=
      lt_of_lt_of_le (by norm_num) (not_lt.mp hcase)
    refine ⟨rfl, ?_, ?_, fun _ => h1⟩
    · rw [h1, Vec3.smul_dot, hproj, mul_zero]
    · rw [h1]
      exact normR_normalize _ hpos

/-- C3 witness: force direction `(0,0,1)` (unit), relative velocity `(1,0,0)`
— the projection has length `1`, so the primary tangent is `(1,0,0)` itself
(normalized projection) and all conclusions hold there. -/
theorem c3_witness :
    normR ⟨0, 0, 1⟩ = 1 ∧
    ((compute_tangent_contact_directions ⟨0, 0, 1⟩ ⟨1, 0, 0⟩ ⟨0, 0, 0⟩).2 =
      Vec3.cross ⟨0, 0, 1⟩
        (compute_tangent_contact_directions ⟨0, 0, 1⟩ ⟨1, 0, 0⟩ ⟨0, 0, 0⟩).1 ∧
    (compute_tangent_contact_directions ⟨0, 0, 1⟩ ⟨1, 0, 0⟩
        ⟨0, 0, 0⟩).1.dot ⟨0, 0, 1⟩ = 0 ∧
    normR (compute_tangent_contact_directions ⟨0, 0, 1⟩ ⟨1, 0, 0⟩ ⟨0, 0, 0⟩).1 = 1 ∧
    (1 / 10000 <
        normR ((⟨1, 0, 0⟩ - ⟨0, 0, 0⟩ : Vec3 ℝ) -
          (Vec3.dot ⟨0, 0, 1⟩ (⟨1, 0, 0⟩ - ⟨0, 0, 0⟩ : Vec3 ℝ)) • (⟨0, 0, 1⟩ : Vec3 ℝ)) →
      (compute_tangent_contact_directions ⟨0, 0, 1⟩ ⟨1, 0, 0⟩ ⟨0, 0, 0⟩).1 =
        (normR ((⟨1, 0, 0⟩ - ⟨0, 0, 0⟩ : Vec3 ℝ) -
            (Vec3.dot ⟨0, 0, 1⟩ (⟨1, 0, 0⟩ - ⟨0, 0, 0⟩ : Vec3 ℝ)) •
              (⟨0, 0, 1⟩ : Vec3 ℝ)))⁻¹ •
          ((⟨1, 0, 0⟩ - ⟨0, 0, 0⟩ : Vec3 ℝ) -
            (Vec3.dot ⟨0, 0, 1⟩ (⟨1, 0, 0⟩ - ⟨0, 0, 0⟩ : Vec3 ℝ)) •
              (⟨0, 0, 1⟩ : Vec3 ℝ)))) := by
  have h : normR (⟨0, 0, 1⟩ : Vec3 ℝ) = 1 := by
    unfold normR Vec3.dot
    norm_num
  exact ⟨h, c3_tangent_directions ⟨0, 0, 1⟩ ⟨1, 0, 0⟩ ⟨0, 0, 0⟩ h⟩

end Rapier
